import Mathlib

/-!
Verification of the stage/step execution engine and provisioning step
behaviour of the edge-manageability-framework installer.

The Go source is embedded shallowly:

* machine integers (`uint32` subnet arithmetic) become `Nat` with explicit
  `% 2^32` where the Go code can wrap;
* fallible operations (`UpdateRuntimeState`, `GetAvailableZones`,
  `GenerateSSHKeyPair`, terraform invocations, file I/O) become explicit
  environment parameters of type `Except`/`Option` describing the outcome
  of the external call, so every definition stays executable;
* the per-step phase functions of the `OrchInstallerStep` interface become
  plain Lean functions carried in a structure;
* a Go `nil` pointer dereference / slice index panic is modelled by an
  `Option` result (`none` = panic).
-/

namespace EMF

/-- Error codes used by `internal.OrchInstallerError` (`OrchInstallerErrorCodeInternal`,
`OrchInstallerErrorCodeInvalidArgument`, `OrchInstallerErrorCodeTerraform`). -/
inductive OrchInstallerErrorCode where
  | internal
  | invalidArgument
  | terraform
deriving DecidableEq, Repr

/-- `internal.OrchInstallerError`: a structured error with a code and a message. -/
structure OrchInstallerError where
  errorCode : OrchInstallerErrorCode
  errorMsg : String
deriving DecidableEq, Repr

/-- `internal.OrchInstallerStageError`: one optional error slot per step of the
stage (`StepErrors []*OrchInstallerError`); `none` in a slot models a `nil`
pointer, i.e. that step succeeded in that pass. -/
structure OrchInstallerStageError where
  stepErrors : List (Option OrchInstallerError)
deriving DecidableEq, Repr

/-- The fields of `internal.OrchInstallerRuntimeState` (config.Generated) that the
verified code reads or writes. -/
structure OrchInstallerRuntimeState where
  action : String := ""
  logDir : String := ""
  deploymentId : String := ""
  jumpHostSSHKeyPrivateKey : String := ""
  jumpHostSSHKeyPublicKey : String := ""
  vpcId : String := ""
  publicSubnetIds : List String := []
  privateSubnetIds : List String := []
  sshuttlePID : String := ""
deriving DecidableEq, Repr

/-- Global section of `internal.OrchInstallerConfig`. -/
structure OrchInstallerGlobalConfig where
  orchName : String := ""
deriving DecidableEq, Repr

/-- AWS section of `internal.OrchInstallerConfig`. -/
structure OrchInstallerAwsConfig where
  region : String := ""
  customerTag : String := ""
  jumpHostWhitelist : List String := []
deriving DecidableEq, Repr

/-- `internal.OrchInstallerConfig`: immutable configuration plus the `Generated`
runtime state snapshot embedded in it. -/
structure OrchInstallerConfig where
  global : OrchInstallerGlobalConfig := {}
  aws : OrchInstallerAwsConfig := {}
  generated : OrchInstallerRuntimeState := {}
deriving DecidableEq, Repr

/-- The `steps.OrchInstallerStep` interface as used by `PreOrchStage`
(`pre_orch.go`): each phase takes the config and the current runtime state and
returns a candidate runtime state plus an optional error; `postStep`
additionally receives the previous error of the triggering pass. -/
structure OrchInstallerStep where
  configStep : OrchInstallerConfig → OrchInstallerRuntimeState →
    OrchInstallerRuntimeState × Option OrchInstallerError
  preStep : OrchInstallerConfig → OrchInstallerRuntimeState →
    OrchInstallerRuntimeState × Option OrchInstallerError
  runStep : OrchInstallerConfig → OrchInstallerRuntimeState →
    OrchInstallerRuntimeState × Option OrchInstallerError
  postStep : OrchInstallerConfig → OrchInstallerRuntimeState →
    Option OrchInstallerError → OrchInstallerRuntimeState × Option OrchInstallerError

/-- A step whose every phase is a no-op; used as the `getD` default when
indexing step lists. -/
def stepDummy : OrchInstallerStep where
  configStep := fun _ st => (st, none)
  preStep := fun _ st => (st, none)
  runStep := fun _ st => (st, none)
  postStep := fun _ st _ => (st, none)

/-- The type of `(*OrchInstallerRuntimeState).UpdateRuntimeState`: merging a
candidate state into the canonical state either yields the merged state or a
structured error.  Its body is not part of the analysed sources, so the stage
engine is verified for an arbitrary merge function. -/
def UpdateFn : Type :=
  OrchInstallerRuntimeState → OrchInstallerRuntimeState →
    Except OrchInstallerError OrchInstallerRuntimeState

/-- One observable phase invocation performed by a stage pass, recording the
step index and, for `post`, the previous error handed to the step. -/
inductive StagePhaseCall where
  | config (i : Nat)
  | pre (i : Nat)
  | run (i : Nat)
  | post (i : Nat) (prevErr : Option OrchInstallerError)
deriving DecidableEq, Repr

/-- The `if err != nil { slot = err } else if err = runtimeState.UpdateRuntimeState(new); err != nil { slot = err }`
pattern shared by every phase call in `pre_orch.go`: run one phase from the
current canonical state; on phase error keep the canonical state and record the
error; on success commit the candidate through `update`, recording a merge
failure instead. -/
def stepPhaseCall (update : UpdateFn)
    (phase : OrchInstallerRuntimeState → OrchInstallerRuntimeState × Option OrchInstallerError)
    (st : OrchInstallerRuntimeState) :
    OrchInstallerRuntimeState × Option OrchInstallerError :=
  match phase st with
  | (_, some err) => (st, some err)
  | (newSt, none) =>
    match update st newSt with
    | .error err => (st, some err)
    | .ok merged => (merged, none)

/-- Loop body of `PreOrchStage.PreStage` for one step: `ConfigStep` (with merge)
followed immediately by `PreStep` (with merge) in the same iteration; the slot
keeps the later error when both sub-phases fail. -/
def preStageBody (update : UpdateFn) (cfg : OrchInstallerConfig)
    (step : OrchInstallerStep) (st : OrchInstallerRuntimeState) :
    OrchInstallerRuntimeState × Option OrchInstallerError :=
  let c := stepPhaseCall update (step.configStep cfg) st
  let p := stepPhaseCall update (step.preStep cfg) c.1
  (p.1, match p.2 with
        | some e => some e
        | none => c.2)

/-- The step loop of `PreOrchStage.PreStage` (`pre_orch.go` lines 38-53),
returning the final canonical state, the per-step error slots and the trace of
phase invocations. -/
def preStageLoop (update : UpdateFn) (cfg : OrchInstallerConfig) :
    List OrchInstallerStep → Nat → OrchInstallerRuntimeState →
    OrchInstallerRuntimeState × List (Option OrchInstallerError) × List StagePhaseCall
  | [], _, st => (st, [], [])
  | step :: rest, i, st =>
    let b := preStageBody update cfg step st
    let r := preStageLoop update cfg rest (i + 1) b.1
    (r.1, b.2 :: r.2.1, .config i :: .pre i :: r.2.2)

/-- `PreOrchStage.PreStage`: run the Prepare pass over every step and return the
aggregate only when some slot is non-empty. -/
def PreOrchStage.PreStage (update : UpdateFn) (steps : List OrchInstallerStep)
    (cfg : OrchInstallerConfig) (st : OrchInstallerRuntimeState) :
    OrchInstallerRuntimeState × Option OrchInstallerStageError × List StagePhaseCall :=
  let r := preStageLoop update cfg steps 0 st
  (r.1, if r.2.1.any Option.isSome then some ⟨r.2.1⟩ else none, r.2.2)

/-- The step loop of `PreOrchStage.RunStage` (`pre_orch.go` lines 65-73). -/
def runStageLoop (update : UpdateFn) (cfg : OrchInstallerConfig) :
    List OrchInstallerStep → Nat → OrchInstallerRuntimeState →
    OrchInstallerRuntimeState × List (Option OrchInstallerError) × List StagePhaseCall
  | [], _, st => (st, [], [])
  | step :: rest, i, st =>
    let b := stepPhaseCall update (step.runStep cfg) st
    let r := runStageLoop update cfg rest (i + 1) b.1
    (r.1, b.2 :: r.2.1, .run i :: r.2.2)

/-- `PreOrchStage.RunStage`: run the Run pass over every step and return the
aggregate only when some slot is non-empty. -/
def PreOrchStage.RunStage (update : UpdateFn) (steps : List OrchInstallerStep)
    (cfg : OrchInstallerConfig) (st : OrchInstallerRuntimeState) :
    OrchInstallerRuntimeState × Option OrchInstallerStageError × List StagePhaseCall :=
  let r := runStageLoop update cfg steps 0 st
  (r.1, if r.2.1.any Option.isSome then some ⟨r.2.1⟩ else none, r.2.2)

/-- The step loop of `PreOrchStage.PostStage` (`pre_orch.go` lines 85-93).
`prevSlots = none` models a `nil` `prevStageError`; the Go code evaluates
`prevStageError.StepErrors[i]` before each call, so a `nil` aggregate or a
too-short slice panics, modelled by the `none` result. -/
def postStageLoop (update : UpdateFn) (cfg : OrchInstallerConfig)
    (prevSlots : Option (List (Option OrchInstallerError))) :
    List OrchInstallerStep → Nat → OrchInstallerRuntimeState →
    Option (OrchInstallerRuntimeState × List (Option OrchInstallerError) × List StagePhaseCall)
  | [], _, st => some (st, [], [])
  | step :: rest, i, st =>
    match prevSlots with
    | none => none
    | some slots =>
      match slots.get? i with
      | none => none
      | some prevErr =>
        let b := stepPhaseCall update (fun s => step.postStep cfg s prevErr) st
        match postStageLoop update cfg prevSlots rest (i + 1) b.1 with
        | none => none
        | some r => some (r.1, b.2 :: r.2.1, .post i prevErr :: r.2.2)

/-- `PreOrchStage.PostStage`: run the Finalize pass over every step, handing
step `i` slot `i` of the triggering pass's aggregate; `none` result models the
runtime panic on a `nil` or too-short aggregate. -/
def PreOrchStage.PostStage (update : UpdateFn) (steps : List OrchInstallerStep)
    (cfg : OrchInstallerConfig) (st : OrchInstallerRuntimeState)
    (prevStageError : Option OrchInstallerStageError) :
    Option (OrchInstallerRuntimeState × Option OrchInstallerStageError × List StagePhaseCall) :=
  match postStageLoop update cfg (prevStageError.map OrchInstallerStageError.stepErrors) steps 0 st with
  | none => none
  | some r => some (r.1, if r.2.1.any Option.isSome then some ⟨r.2.1⟩ else none, r.2.2)

/-! ### TerraformUtility.Run (`internal/steps/network.go` / `on_prem/network.go`)

The external effects of `Run` (directory creation, HCL marshalling, file
writes, `tfexec` calls) are summarised in a `TerraformEnv`: each field gives
the outcome of the corresponding external call, `none`/`.ok` meaning success
and `some cause` the failure cause rendered by Go's `%v`. -/

/-- External actions `Run` can perform through `tfexec`
(`ApplyJSON` / `DestroyJSON`). -/
inductive TfCall where
  | apply
  | destroy
deriving DecidableEq, Repr

/-- Abstract view of `map[string]tfexec.OutputMeta` returned by `tf.Output`. -/
def TfOutputMap : Type := List (String × String)

/-- Outcomes of the external calls `TerraformUtility.Run` makes, in program
order.  `mkdirNeeded` is whether `os.Stat` on `<module>/environments` reports
the directory missing. -/
structure TerraformEnv where
  mkdirNeeded : Bool := false
  mkdirErr : Option String := none
  marshalVariablesErr : Option String := none
  writeVariablesErr : Option String := none
  marshalBackendErr : Option String := none
  writeBackendErr : Option String := none
  newTerraformErr : Option String := none
  initErr : Option String := none
  logWriterErr : Option String := none
  applyErr : Option String := none
  destroyErr : Option String := none
  outputErr : Option String := none
  outputValue : TfOutputMap := []

/-- The action dispatch of `TerraformUtility.Run` (`network.go` lines 176-201):
install/upgrade applies, uninstall destroys, anything else is an
`InvalidArgument` contract violation with no external action. -/
def terraformDispatch (action : String) (env : TerraformEnv) :
    List TfCall × Option OrchInstallerError :=
  if action = "install" ∨ action = "upgrade" then
    match env.applyErr with
    | some c => ([.apply], some ⟨.terraform, "failed to apply terraform config: " ++ c⟩)
    | none => ([.apply], none)
  else if action = "uninstall" then
    match env.destroyErr with
    | some c => ([.destroy], some ⟨.terraform, "failed to destroy terraform config: " ++ c⟩)
    | none => ([.destroy], none)
  else
    ([], some ⟨.invalidArgument, "unsupported action: " ++ action⟩)

/-- `TerraformUtility.Run` after the variables and backend-config files were
written: create the terraform instance, init, create the log writer, dispatch
on the action, and read the outputs. -/
def terraformRunAfterFiles (action : String) (env : TerraformEnv) :
    List TfCall × Except OrchInstallerError TfOutputMap :=
  match env.newTerraformErr with
  | some c => ([], .error ⟨.terraform, "failed to create terraform instance: " ++ c⟩)
  | none =>
    match env.initErr with
    | some c => ([], .error ⟨.terraform, "failed to create terraform instance: " ++ c⟩)
    | none =>
      match env.logWriterErr with
      | some c => ([], .error ⟨.internal, "failed to create file log writer: " ++ c⟩)
      | none =>
        let d := terraformDispatch action env
        match d.2 with
        | some e => (d.1, .error e)
        | none =>
          match env.outputErr with
          | some c => (d.1, .error ⟨.terraform, "failed to retrieve terraform output: " ++ c⟩)
          | none => (d.1, .ok env.outputValue)

/-- `TerraformUtility.Run` after the `environments` directory exists: marshal
and write the variables file, then the backend-config file, then continue. -/
def terraformRunAfterMkdir (action : String) (env : TerraformEnv) :
    List TfCall × Except OrchInstallerError TfOutputMap :=
  match env.marshalVariablesErr with
  | some c => ([], .error ⟨.internal, "failed to marshal variables: " ++ c⟩)
  | none =>
    match env.writeVariablesErr with
    | some c => ([], .error ⟨.internal, "failed to write variables file: " ++ c⟩)
    | none =>
      match env.marshalBackendErr with
      | some c => ([], .error ⟨.internal, "failed to marshal backend config: " ++ c⟩)
      | none =>
        match env.writeBackendErr with
        | some c => ([], .error ⟨.internal, "failed to write backend config file: " ++ c⟩)
        | none => terraformRunAfterFiles action env

/-- `TerraformUtility.Run` (`network.go` lines 104-229): create the
`environments` directory if missing, write the variables and backend files,
initialise terraform, apply or destroy according to the action, and read the
outputs.  The first component records which external terraform actions were
performed; the deletion of the generated files after a successful run only
logs on failure and is not modelled. -/
def TerraformUtility.run (action : String) (env : TerraformEnv) :
    List TfCall × Except OrchInstallerError TfOutputMap :=
  if env.mkdirNeeded then
    match env.mkdirErr with
    | some c => ([], .error ⟨.internal, "failed to create environments directory: " ++ c⟩)
    | none => terraformRunAfterMkdir action env
  else terraformRunAfterMkdir action env

/-! ### AWSVPCStep (`internal/steps/aws/vpc.go`)

Subnet CIDR blocks are modelled as `(base address, mask size)` pairs of
naturals: the Go code stores `fmt.Sprintf("%s/%d", ipconv.IntToIPv4(ipInt), mask)`,
and `IntToIPv4`/`Sprintf` render `(ipInt, mask)` injectively, so the pair is a
faithful view of the string.  All `uint32` arithmetic carries an explicit
`% 2^32`. -/

/-- `AWSVPCSubnet`: availability zone plus the subnet CIDR block in parsed
`(base, mask)` form. -/
structure AWSVPCSubnet where
  az : String
  cidrBase : Nat
  cidrMask : Nat
deriving DecidableEq, Repr

/-- The fields of `AWSVPCVariables` the verified code computes.  The Go
`map[string]AWSVPCSubnet` fields become association lists in insertion order;
the keys inserted are pairwise distinct whenever the availability-zone names
are, so the list has exactly the map's entries. -/
structure AWSVPCVariables where
  region : String := ""
  vpcName : String := ""
  vpcCidrBase : Nat := 0
  vpcCidrMask : Nat := 0
  endpointSGName : String := ""
  privateSubnets : List (String × AWSVPCSubnet) := []
  publicSubnets : List (String × AWSVPCSubnet) := []
  jumphostAmiId : String := ""
  jumphostIPAllowList : List String := []
  jumphostInstanceSshKey : String := ""
  customerTag : String := ""
deriving DecidableEq, Repr

/-- `DefaultNetworkCIDR = "10.250.0.0/16"` in parsed form:
`10.250.0.0 = 10*2^24 + 250*2^16`. -/
def defaultNetworkCIDRBase : Nat := 10 * 2 ^ 24 + 250 * 2 ^ 16

/-- Mask size of `DefaultNetworkCIDR`. -/
def defaultNetworkCIDRMask : Nat := 16

/-- `JumpHostAMIID` constant. -/
def jumpHostAMIID : String := "ami-0026a04369a3093cc"

/-- Outcomes of the external calls `AWSVPCStep.ConfigStep` makes:
`GetAvailableZones` and `GenerateSSHKeyPair` (private key, public key). -/
structure AWSVPCConfigEnv where
  availabilityZones : Except String (List String)
  sshKeyPair : Except String (String × String)

/-- Modelled from the spec: the subnet-layout constants
`MinimumVPCCIDRMaskSize`, `RequiredAvailabilityZones`,
`PrivateSubnetMaskSize` and `PublicSubnetMaskSize` referenced by
`AWSVPCStep.ConfigStep` are defined elsewhere in the repository and are not
among the analysed sources; the spec only fixes the scenario "3 availability
zones with private mask size 20", so the step is modelled parametrically in
them. -/
structure AWSVPCLayout where
  minimumVPCCIDRMaskSize : Nat
  requiredAvailabilityZones : Nat
  privateSubnetMaskSize : Nat
  publicSubnetMaskSize : Nat

/-- `AWSVPCStep.ConfigStep` (`vpc.go` lines 100-194): fill the terraform
variables, compute one private and one public subnet per required
availability zone from the (constant) VPC CIDR block, and generate the
jumphost SSH key pair unless the runtime state already carries one.  Returns
the computed variables, the returned runtime state and the optional error.
`ipconv.IPv4ToInt` cannot fail on an address produced by `net.ParseCIDR` of
the IPv4 constant, so that error branch is not modelled; the terraform
backend-config assembly at the end writes no runtime state and is elided. -/
def AWSVPCStep.configStep (layout : AWSVPCLayout) (env : AWSVPCConfigEnv)
    (cfg : OrchInstallerConfig) :
    AWSVPCVariables × OrchInstallerRuntimeState × Option OrchInstallerError :=
  let vars0 : AWSVPCVariables :=
    { region := cfg.aws.region
      vpcName := cfg.global.orchName
      vpcCidrBase := defaultNetworkCIDRBase
      vpcCidrMask := defaultNetworkCIDRMask
      endpointSGName := cfg.global.orchName ++ "-vpc-ep" }
  match env.availabilityZones with
  | .error c =>
    (vars0, cfg.generated, some ⟨.internal, "failed to get availability zones: " ++ c⟩)
  | .ok azs =>
    if vars0.vpcCidrMask > layout.minimumVPCCIDRMaskSize then
      (vars0, cfg.generated, some ⟨.invalidArgument,
        "VPC CIDR block is too small: 10.250.0.0/16, minimum is " ++
          toString layout.minimumVPCCIDRMaskSize⟩)
    else
      let privSize := 2 ^ (32 - layout.privateSubnetMaskSize)
      let pubSize := 2 ^ (32 - layout.publicSubnetMaskSize)
      let priv := (List.range layout.requiredAvailabilityZones).map fun i =>
        ("subnet-" ++ azs.getD i "",
         AWSVPCSubnet.mk (azs.getD i "")
           ((vars0.vpcCidrBase + i * privSize) % 2 ^ 32)
           layout.privateSubnetMaskSize)
      let pubBase := (vars0.vpcCidrBase + layout.requiredAvailabilityZones * privSize) % 2 ^ 32
      let pub := (List.range layout.requiredAvailabilityZones).map fun i =>
        ("subnet-" ++ azs.getD i "" ++ "-pub",
         AWSVPCSubnet.mk (azs.getD i "")
           ((pubBase + i * pubSize) % 2 ^ 32)
           layout.publicSubnetMaskSize)
      let vars1 := { vars0 with
        privateSubnets := priv
        publicSubnets := pub
        jumphostAmiId := jumpHostAMIID
        jumphostIPAllowList := cfg.aws.jumpHostWhitelist }
      if cfg.generated.jumpHostSSHKeyPrivateKey = "" ∨
          cfg.generated.jumpHostSSHKeyPublicKey = "" then
        match env.sshKeyPair with
        | .error c =>
          (vars1, cfg.generated, some ⟨.internal, "failed to generate SSH key pair: " ++ c⟩)
        | .ok kp =>
          ({ vars1 with jumphostInstanceSshKey := kp.2, customerTag := cfg.aws.customerTag },
           { cfg.generated with
              jumpHostSSHKeyPrivateKey := kp.1
              jumpHostSSHKeyPublicKey := kp.2 },
           none)
      else
        ({ vars1 with
            jumphostInstanceSshKey := cfg.generated.jumpHostSSHKeyPublicKey
            customerTag := cfg.aws.customerTag },
         cfg.generated, none)

/-- Abstract view of a `tfexec.OutputMeta` entry as `AWSVPCStep.RunStep` reads
it: the raw value bytes and, for the subnet outputs, the parsed
`<subnet name>.id` mapping. -/
structure TfOutputMeta where
  raw : String
  ids : List (String × String)
deriving DecidableEq, Repr

/-- `strings.Trim(s, "\x22")`: strip leading and trailing double quotes. -/
def trimQuotes (s : String) : String :=
  ⟨((s.data.dropWhile (· == '"')).reverse.dropWhile (· == '"')).reverse⟩

/-- The per-subnet id extraction loop of `AWSVPCStep.RunStep`: for every subnet
of the step's variables look up `<name>.id` in the terraform output; ids found
before the first missing one are kept (the Go loop appends as it goes and
returns on the first miss).  The Go `range` over the map iterates in an
unspecified order; the model iterates in insertion order. -/
def collectSubnetIds :
    List (String × AWSVPCSubnet) → List (String × String) → List String × Option String
  | [], _ => ([], none)
  | (name, _) :: rest, ids =>
    match ids.lookup name with
    | none => ([], some name)
    | some id =>
      let r := collectSubnetIds rest ids
      (id :: r.1, r.2)

/-- `AWSVPCStep.RunStep` (`vpc.go` lines 200-305): run the terraform module,
then — unless the action is the string `"destroy"` — extract `vpc_id`,
`public_subnets` and `private_subnets` from the terraform output into the
runtime state, failing with a `Terraform`-code error when any is absent.
`terraformResult` is the outcome of `steps.RunTerraformModule`; its `.ok none`
case models a `nil` output map.  JSON re-marshalling of the subnet values is
assumed well-formed (its failure branches only re-wrap marshalling errors). -/
def AWSVPCStep.runStep (vars : AWSVPCVariables)
    (terraformResult : Except String (Option (List (String × TfOutputMeta))))
    (cfg : OrchInstallerConfig) :
    OrchInstallerRuntimeState × Option OrchInstallerError :=
  let st := cfg.generated
  match terraformResult with
  | .error c => (st, some ⟨.terraform, "failed to run terraform: " ++ c⟩)
  | .ok output =>
    if st.action = "destroy" then (st, none)
    else
      match output with
      | none => (st, some ⟨.terraform, "cannot find any output from VPC module"⟩)
      | some out =>
        match out.lookup "vpc_id" with
        | none => (st, some ⟨.terraform, "vpc_id does not exist in terraform output"⟩)
        | some vpcMeta =>
          let st1 := { st with vpcId := trimQuotes vpcMeta.raw }
          match out.lookup "public_subnets" with
          | none => (st1, some ⟨.terraform, "public_subnets does not exist in terraform output"⟩)
          | some pubMeta =>
            let pubR := collectSubnetIds vars.publicSubnets pubMeta.ids
            let st2 := { st1 with publicSubnetIds := pubR.1 }
            match pubR.2 with
            | some name =>
              (st2, some ⟨.terraform,
                "subnet id for " ++ name ++ " does not exist in terraform output"⟩)
            | none =>
              match out.lookup "private_subnets" with
              | none =>
                (st2, some ⟨.terraform, "private_subnets does not exist in terraform output"⟩)
              | some privMeta =>
                let privR := collectSubnetIds vars.privateSubnets privMeta.ids
                let st3 := { st2 with privateSubnetIds := privR.1 }
                match privR.2 with
                | some name =>
                  (st3, some ⟨.terraform,
                    "subnet id for " ++ name ++ " does not exist in terraform output"⟩)
                | none => (st3, none)

/-! ### StopSshuttle (`internal/steps/common/sshuttle.go`) -/

/-- `strings.TrimSpace`: strip leading and trailing whitespace. -/
def trimSpace (s : String) : String :=
  ⟨((s.data.dropWhile Char.isWhitespace).reverse.dropWhile Char.isWhitespace).reverse⟩

/-- `StopSshuttle`: read the pid from `/tmp/sshuttle.pid` — on read failure
assume the process is not running and return `nil` — otherwise run
`kill <pid>` and wrap its failure.  `readPidFile` is the outcome of
`os.ReadFile` (`none` = read error) and `kill pid` the outcome of
`exec.Command("kill", pid).Run()` (`none` = success, `some cause` = the
error rendered by `%w`). -/
def StopSshuttle (readPidFile : Option String) (kill : String → Option String) :
    Option String :=
  match readPidFile with
  | none => none
  | some data =>
    let pid := trimSpace data
    match kill pid with
    | none => none
    | some cause =>
      some ("failed to terminate sshuttle process with PID " ++ pid ++ ": " ++ cause)

/-! ## Helper lemmas about the stage-pass loops -/

theorem preStageLoop_length (update : UpdateFn) (cfg : OrchInstallerConfig) :
    ∀ (steps : List OrchInstallerStep) (i : Nat) (st : OrchInstallerRuntimeState),
      (preStageLoop update cfg steps i st).2.1.length = steps.length := by
  intro steps
  induction steps with
  | nil => intro i st; rfl
  | cons step rest ih => intro i st; simp [preStageLoop, ih]

theorem preStageLoop_trace (update : UpdateFn) (cfg : OrchInstallerConfig) :
    ∀ (steps : List OrchInstallerStep) (i : Nat) (st : OrchInstallerRuntimeState),
      (preStageLoop update cfg steps i st).2.2 =
        (List.range steps.length).flatMap
          (fun k => [StagePhaseCall.config (i + k), StagePhaseCall.pre (i + k)]) := by
  intro steps
  induction steps with
  | nil => intro i st; rfl
  | cons step rest ih =>
    intro i st
    have hf : (fun k => [StagePhaseCall.config (i + (k + 1)), StagePhaseCall.pre (i + (k + 1))])
        = (fun k => [StagePhaseCall.config (i + 1 + k), StagePhaseCall.pre (i + 1 + k)]) := by
      funext k
      have hik : i + (k + 1) = i + 1 + k := by omega
      rw [hik]
    simp only [preStageLoop, ih, List.length_cons, List.range_succ_eq_map,
      List.flatMap_cons, List.flatMap_map, Nat.add_zero, Function.comp_def, Nat.succ_eq_add_one, hf]
    rfl

theorem preStageLoop_slot (update : UpdateFn) (cfg : OrchInstallerConfig) :
    ∀ (steps : List OrchInstallerStep) (i : Nat) (st : OrchInstallerRuntimeState)
      (k : Nat), k < steps.length →
      ∃ s, (preStageLoop update cfg steps i st).2.1.getD k none =
        (preStageBody update cfg (steps.getD k stepDummy) s).2 := by
  intro steps
  induction steps with
  | nil => intro i st k hk; exact absurd hk (by simp)
  | cons step rest ih =>
    intro i st k hk
    cases k with
    | zero => exact ⟨st, by simp [preStageLoop]⟩
    | succ j =>
      obtain ⟨s, hs⟩ := ih (i + 1) (preStageBody update cfg step st).1 j (by simpa using hk)
      exact ⟨s, by simpa [preStageLoop] using hs⟩

theorem runStageLoop_length (update : UpdateFn) (cfg : OrchInstallerConfig) :
    ∀ (steps : List OrchInstallerStep) (i : Nat) (st : OrchInstallerRuntimeState),
      (runStageLoop update cfg steps i st).2.1.length = steps.length := by
  intro steps
  induction steps with
  | nil => intro i st; rfl
  | cons step rest ih => intro i st; simp [runStageLoop, ih]

theorem runStageLoop_trace (update : UpdateFn) (cfg : OrchInstallerConfig) :
    ∀ (steps : List OrchInstallerStep) (i : Nat) (st : OrchInstallerRuntimeState),
      (runStageLoop update cfg steps i st).2.2 =
        (List.range steps.length).map (fun k => StagePhaseCall.run (i + k)) := by
  intro steps
  induction steps with
  | nil => intro i st; rfl
  | cons step rest ih =>
    intro i st
    have hf : (fun k => StagePhaseCall.run (i + (k + 1)))
        = (fun k => StagePhaseCall.run (i + 1 + k)) := by
      funext k
      have hik : i + (k + 1) = i + 1 + k := by omega
      rw [hik]
    simp only [runStageLoop, ih, List.length_cons, List.range_succ_eq_map,
      List.map_cons, List.map_map, Nat.add_zero, Function.comp_def, Nat.succ_eq_add_one, hf]

theorem runStageLoop_slot (update : UpdateFn) (cfg : OrchInstallerConfig) :
    ∀ (steps : List OrchInstallerStep) (i : Nat) (st : OrchInstallerRuntimeState)
      (k : Nat), k < steps.length →
      ∃ s, (runStageLoop update cfg steps i st).2.1.getD k none =
        (stepPhaseCall update ((steps.getD k stepDummy).runStep cfg) s).2 := by
  intro steps
  induction steps with
  | nil => intro i st k hk; exact absurd hk (by simp)
  | cons step rest ih =>
    intro i st k hk
    cases k with
    | zero => exact ⟨st, by simp [runStageLoop]⟩
    | succ j =>
      obtain ⟨s, hs⟩ :=
        ih (i + 1) (stepPhaseCall update (step.runStep cfg) st).1 j (by simpa using hk)
      exact ⟨s, by simpa [runStageLoop] using hs⟩

theorem postStageLoop_some (update : UpdateFn) (cfg : OrchInstallerConfig)
    (slots : List (Option OrchInstallerError)) :
    ∀ (steps : List OrchInstallerStep) (i : Nat) (st : OrchInstallerRuntimeState),
      i + steps.length ≤ slots.length →
      ∃ r, postStageLoop update cfg (some slots) steps i st = some r ∧
        r.2.1.length = steps.length ∧
        r.2.2 = (List.range steps.length).map
          (fun k => StagePhaseCall.post (i + k) (slots.getD (i + k) none)) := by
  intro steps
  induction steps with
  | nil => intro i st _; exact ⟨(st, [], []), rfl, rfl, rfl⟩
  | cons step rest ih =>
    intro i st h
    have hi : i < slots.length := by simp at h; omega
    have hget : slots.get? i = some (slots[i]) := by
      simp [List.get?_eq_getElem?, List.getElem?_eq_getElem hi]
    have hgetD : slots.getD i none = slots[i] := by
      simp [List.getD_eq_getElem?_getD, List.getElem?_eq_getElem hi]
    set b := stepPhaseCall update (fun s => step.postStep cfg s (slots[i])) st with hb
    obtain ⟨r, hr, hlen, htr⟩ := ih (i + 1) b.1 (by simp at h ⊢; omega)
    have hf : (fun k => StagePhaseCall.post (i + (k + 1)) (slots.getD (i + (k + 1)) none))
        = (fun k => StagePhaseCall.post (i + 1 + k) (slots.getD (i + 1 + k) none)) := by
      funext k
      have hik : i + (k + 1) = i + 1 + k := by omega
      rw [hik]
    refine ⟨(r.1, b.2 :: r.2.1, .post i (slots[i]) :: r.2.2), ?_, ?_, ?_⟩
    · simp only [postStageLoop, hget]
      rw [← hb, hr]
    · simpa using hlen
    · simp only [htr, List.length_cons, List.range_succ_eq_map, List.map_cons, List.map_map,
        Nat.add_zero, Function.comp_def, Nat.succ_eq_add_one, hf, hgetD]

theorem postStageLoop_nil_panic (update : UpdateFn) (cfg : OrchInstallerConfig) :
    ∀ (steps : List OrchInstallerStep) (i : Nat) (st : OrchInstallerRuntimeState),
      steps ≠ [] → postStageLoop update cfg none steps i st = none := by
  intro steps i st h
  cases steps with
  | nil => exact absurd rfl h
  | cons step rest => rfl

theorem postStageLoop_bound (update : UpdateFn) (cfg : OrchInstallerConfig)
    (slots : List (Option OrchInstallerError)) :
    ∀ (steps : List OrchInstallerStep) (i : Nat) (st : OrchInstallerRuntimeState),
      postStageLoop update cfg (some slots) steps i st ≠ none →
      ∀ k, k < steps.length → i + k < slots.length := by
  intro steps
  induction steps with
  | nil => intro i st _ k hk; exact absurd hk (by simp)
  | cons step rest ih =>
    intro i st h k hk
    have hget : slots[i]? ≠ none := by
      intro hnone
      exact h (by simp [postStageLoop, List.get?_eq_getElem?, hnone])
    have hi : i < slots.length := by
      by_contra hge
      exact hget (List.getElem?_eq_none (by omega))
    cases k with
    | zero => omega
    | succ j =>
      obtain ⟨v, hv⟩ := Option.ne_none_iff_exists'.mp hget
      have hrest : postStageLoop update cfg (some slots) rest (i + 1)
          (stepPhaseCall update (fun s => step.postStep cfg s v) st).1 ≠ none := by
        intro hnone
        exact h (by simp [postStageLoop, List.get?_eq_getElem?, hv, hnone])
      have := ih (i + 1) _ hrest j (by simpa using hk)
      omega

/-- `stepPhaseCall` records an error exactly when the phase itself fails,
provided the runtime-state merge always succeeds. -/
theorem stepPhaseCall_snd_isSome (update : UpdateFn)
    (phase : OrchInstallerRuntimeState → OrchInstallerRuntimeState × Option OrchInstallerError)
    (s : OrchInstallerRuntimeState)
    (hupd : ∀ a b, ∃ r, update a b = Except.ok r) :
    ((stepPhaseCall update phase s).2).isSome = ((phase s).2).isSome := by
  rcases hp : phase s with ⟨ns, e⟩
  cases e with
  | some err => simp [stepPhaseCall, hp]
  | none =>
    obtain ⟨r, hr⟩ := hupd s ns
    simp [stepPhaseCall, hp, hr]

/-- When the phase itself fails, `stepPhaseCall` keeps the canonical state and
records the phase's error. -/
theorem stepPhaseCall_of_phase_err (update : UpdateFn)
    (phase : OrchInstallerRuntimeState → OrchInstallerRuntimeState × Option OrchInstallerError)
    (s : OrchInstallerRuntimeState) (e : OrchInstallerError)
    (h : (phase s).2 = some e) :
    stepPhaseCall update phase s = (s, some e) := by
  rcases hp : phase s with ⟨ns, e'⟩
  rw [hp] at h
  simp only at h
  subst h
  simp [stepPhaseCall, hp]

/-- When a step's `PreStep` always fails with `e`, the combined Prepare slot of
that step is `e` (the later failure wins). -/
theorem preStageBody_snd_of_pre_err (update : UpdateFn) (cfg : OrchInstallerConfig)
    (step : OrchInstallerStep) (s : OrchInstallerRuntimeState) (e : OrchInstallerError)
    (h : ∀ t, (step.preStep cfg t).2 = some e) :
    (preStageBody update cfg step s).2 = some e := by
  have h2 := stepPhaseCall_of_phase_err update (step.preStep cfg)
    (stepPhaseCall update (step.configStep cfg) s).1 e (h _)
  simp [preStageBody, h2]

/-- A slot list containing a non-empty slot makes the stage return an
aggregate (`containsError` is set). -/
theorem slots_any_isSome (slots : List (Option OrchInstallerError)) (i : Nat)
    (hi : i < slots.length) (hs : (slots.getD i none).isSome = true) :
    slots.any Option.isSome = true := by
  have hgetD : slots.getD i none = slots[i] := by
    simp [List.getD_eq_getElem?_getD, List.getElem?_eq_getElem hi]
  exact List.any_eq_true.mpr ⟨slots[i], List.getElem_mem hi, by rw [← hgetD]; exact hs⟩

/-! ## Sample objects used by the concrete witnesses -/

/-- A sample structured error. -/
def sampleErr : OrchInstallerError := ⟨.internal, "sample failure"⟩

/-- A sample (empty) installer configuration. -/
def sampleConfig : OrchInstallerConfig := {}

/-- A sample (empty) runtime state. -/
def sampleState : OrchInstallerRuntimeState := {}

/-- A merge function that always succeeds, committing the candidate. -/
def updOk : UpdateFn := fun _ cand => .ok cand

/-- A step whose `RunStep` always fails with `sampleErr`. -/
def stepRunFail : OrchInstallerStep :=
  { stepDummy with runStep := fun _ st => (st, some sampleErr) }

/-! ## Claims about the stage engine -/

/-- C1: for every stage step list and every triggering-pass aggregate with one
slot per step, the Finalize pass (`PostStage`) completes and invokes `PostStep`
exactly once for every step, in list order — also for steps whose slot carries
an error — passing step `i` the error stored at slot `i` of the triggering
aggregate as the previous-error input. -/
theorem c1_postStage_finalizes_every_step (update : UpdateFn)
    (cfg : OrchInstallerConfig) (steps : List OrchInstallerStep)
    (st : OrchInstallerRuntimeState) (p : OrchInstallerStageError)
    (h : p.stepErrors.length = steps.length) :
    ∃ r, PreOrchStage.PostStage update steps cfg st (some p) = some r ∧
      r.2.2 = (List.range steps.length).map
        (fun i => StagePhaseCall.post i (p.stepErrors.getD i none)) := by
  obtain ⟨⟨st', slots, tr⟩, hr, hlen, htr⟩ :=
    postStageLoop_some update cfg p.stepErrors steps 0 st (by omega)
  refine ⟨(st', if slots.any Option.isSome then some ⟨slots⟩ else none, tr), ?_, ?_⟩
  · simp only [PreOrchStage.PostStage, Option.map_some', hr]
  · simpa using htr

/-- Witness for C1 at a concrete two-step stage whose first slot carries an
error. -/
theorem c1_witness :
    ∃ r, PreOrchStage.PostStage updOk [stepDummy, stepDummy] sampleConfig sampleState
        (some ⟨[some sampleErr, none]⟩) = some r ∧
      r.2.2 = (List.range 2).map
        (fun i => StagePhaseCall.post i
          ((OrchInstallerStageError.mk [some sampleErr, none]).stepErrors.getD i none)) := by
  have h := c1_postStage_finalizes_every_step updOk sampleConfig [stepDummy, stepDummy]
    sampleState ⟨[some sampleErr, none]⟩ (by rfl)
  simpa using h

/-- C2: if exactly the step at index `i` fails in the Run pass (and the
runtime-state merge always succeeds), `RunStage` still calls `RunStep` on
every step in list order with no short-circuiting, and the returned aggregate
has a non-empty entry exactly at index `i`. -/
theorem c2_runStage_isolates_single_failure (update : UpdateFn)
    (cfg : OrchInstallerConfig) (steps : List OrchInstallerStep)
    (st : OrchInstallerRuntimeState) (i : Nat) (hi : i < steps.length)
    (hupd : ∀ a b, ∃ r, update a b = Except.ok r)
    (hfail : ∀ s, (((steps.getD i stepDummy).runStep cfg s).2).isSome = true)
    (hok : ∀ j, j < steps.length → j ≠ i →
      ∀ s, ((steps.getD j stepDummy).runStep cfg s).2 = none) :
    (PreOrchStage.RunStage update steps cfg st).2.2 =
      (List.range steps.length).map StagePhaseCall.run ∧
    ∃ agg, (PreOrchStage.RunStage update steps cfg st).2.1 = some agg ∧
      agg.stepErrors.length = steps.length ∧
      ∀ j, j < steps.length → ((agg.stepErrors.getD j none).isSome = true ↔ j = i) := by
  have hlen := runStageLoop_length update cfg steps 0 st
  have hslot : ∀ j, j < steps.length →
      ((runStageLoop update cfg steps 0 st).2.1.getD j none).isSome =
        (if j = i then true else false) := by
    intro j hj
    obtain ⟨s, hs⟩ := runStageLoop_slot update cfg steps 0 st j hj
    rw [hs, stepPhaseCall_snd_isSome update _ s hupd]
    by_cases hji : j = i
    · subst hji
      rw [if_pos rfl]
      exact hfail s
    · rw [if_neg hji, hok j hj hji s]
      rfl
  have hany : (runStageLoop update cfg steps 0 st).2.1.any Option.isSome = true := by
    refine slots_any_isSome _ i (by rw [hlen]; exact hi) ?_
    have := hslot i hi
    simpa using this
  constructor
  · have := runStageLoop_trace update cfg steps 0 st
    simpa [PreOrchStage.RunStage] using this
  · refine ⟨⟨(runStageLoop update cfg steps 0 st).2.1⟩, ?_, by simpa using hlen, ?_⟩
    · simp [PreOrchStage.RunStage, hany]
    · intro j hj
      have := hslot j hj
      by_cases hji : j = i <;> simp [hji] at this ⊢ <;> simp [this]

/-- Witness for C2: a three-step stage whose middle step fails in Run. -/
theorem c2_witness :
    (PreOrchStage.RunStage updOk [stepDummy, stepRunFail, stepDummy]
        sampleConfig sampleState).2.2 =
      (List.range 3).map StagePhaseCall.run ∧
    ∃ agg, (PreOrchStage.RunStage updOk [stepDummy, stepRunFail, stepDummy]
        sampleConfig sampleState).2.1 = some agg ∧
      agg.stepErrors.length = 3 ∧
      ∀ j, j < 3 → ((agg.stepErrors.getD j none).isSome = true ↔ j = 1) := by
  have h := c2_runStage_isolates_single_failure updOk sampleConfig
    [stepDummy, stepRunFail, stepDummy] sampleState 1 (by decide)
    (fun a b => ⟨b, rfl⟩)
    (fun s => rfl)
    (by
      intro j hj hne s
      have hj3 : j < 3 := by simpa using hj
      interval_cases j
      · rfl
      · exact absurd rfl hne
      · rfl)
  simpa using h

/-- C3 counterexample: on a concrete two-step stage, `PreStage` interleaves
`ConfigStep` and `PreStep` per step within one loop; the trace is not the
"all Configure first, then all Pre" order the claim asserts. -/
theorem c3_counterexample :
    (PreOrchStage.PreStage updOk [stepDummy, stepDummy] sampleConfig sampleState).2.2 =
      [StagePhaseCall.config 0, StagePhaseCall.pre 0,
       StagePhaseCall.config 1, StagePhaseCall.pre 1] ∧
    [StagePhaseCall.config 0, StagePhaseCall.pre 0,
       StagePhaseCall.config 1, StagePhaseCall.pre 1] ≠
      [StagePhaseCall.config 0, StagePhaseCall.config 1,
       StagePhaseCall.pre 0, StagePhaseCall.pre 1] := by
  exact ⟨rfl, by decide⟩

/-- C3 (amended): `PreStage` runs a single loop over the steps; for each step
in list order it calls `ConfigStep` (merging its state on success) and then
immediately `PreStep` (merging on success) before advancing to the next step,
so a later step's Configure observes earlier steps' Pre effects; it returns
one combined aggregate in which, when both sub-phases of step `i` fail, the
later (`Pre`) failure occupies slot `i`. -/
theorem c3_preStage_interleaves_config_and_pre (update : UpdateFn)
    (cfg : OrchInstallerConfig) (steps : List OrchInstallerStep)
    (st : OrchInstallerRuntimeState) :
    (PreOrchStage.PreStage update steps cfg st).2.2 =
      (List.range steps.length).flatMap
        (fun i => [StagePhaseCall.config i, StagePhaseCall.pre i]) ∧
    ∀ i, i < steps.length → ∀ e1 e2,
      (∀ s, ((steps.getD i stepDummy).configStep cfg s).2 = some e1) →
      (∀ s, ((steps.getD i stepDummy).preStep cfg s).2 = some e2) →
      ∃ agg, (PreOrchStage.PreStage update steps cfg st).2.1 = some agg ∧
        agg.stepErrors.getD i none = some e2 := by
  constructor
  · have := preStageLoop_trace update cfg steps 0 st
    simpa [PreOrchStage.PreStage] using this
  · intro i hi e1 e2 _ hp
    obtain ⟨s, hs⟩ := preStageLoop_slot update cfg steps 0 st i hi
    have hslot : (preStageLoop update cfg steps 0 st).2.1.getD i none = some e2 := by
      rw [hs]
      exact preStageBody_snd_of_pre_err update cfg (steps.getD i stepDummy) s e2 hp
    have hany : (preStageLoop update cfg steps 0 st).2.1.any Option.isSome = true := by
      refine slots_any_isSome _ i ?_ (by rw [hslot]; rfl)
      rw [preStageLoop_length update cfg steps 0 st]
      exact hi
    refine ⟨⟨(preStageLoop update cfg steps 0 st).2.1⟩, ?_, hslot⟩
    simp [PreOrchStage.PreStage, hany]

/-- Witness for the amended C3: a two-step stage whose second step fails both
`ConfigStep` (with `sampleErr`) and `PreStep` (with a distinct error); the
aggregate's slot 1 holds the `Pre` error. -/
theorem c3_amended_witness :
    (PreOrchStage.PreStage updOk
        [stepDummy,
         { stepDummy with
            configStep := fun _ st => (st, some sampleErr)
            preStep := fun _ st => (st, some ⟨.internal, "pre failure"⟩) }]
        sampleConfig sampleState).2.2 =
      (List.range 2).flatMap
        (fun i => [StagePhaseCall.config i, StagePhaseCall.pre i]) ∧
    ∃ agg, (PreOrchStage.PreStage updOk
        [stepDummy,
         { stepDummy with
            configStep := fun _ st => (st, some sampleErr)
            preStep := fun _ st => (st, some ⟨.internal, "pre failure"⟩) }]
        sampleConfig sampleState).2.1 = some agg ∧
      agg.stepErrors.getD 1 none = some ⟨.internal, "pre failure"⟩ := by
  have h := c3_preStage_interleaves_config_and_pre updOk sampleConfig
    [stepDummy,
     { stepDummy with
        configStep := fun _ st => (st, some sampleErr)
        preStep := fun _ st => (st, some ⟨.internal, "pre failure"⟩) }]
    sampleState
  refine ⟨by simpa using h.1, ?_⟩
  have h2 := h.2 1 (by decide) sampleErr ⟨.internal, "pre failure"⟩
    (fun s => rfl) (fun s => rfl)
  simpa using h2

/-- C5: whenever `PreStage` or `RunStage` returns an aggregate, it has exactly
one slot per step; `PostStage` completes without the runtime panic only when
the steps list is empty or the triggering aggregate is non-nil with a slot for
every step index; in particular a `nil` aggregate (a fully successful
triggering pass) makes `PostStage` dereference nil whenever there is at least
one step. -/
theorem c5_aggregate_shape_and_postStage_panic (update : UpdateFn)
    (cfg : OrchInstallerConfig) (steps : List OrchInstallerStep)
    (st : OrchInstallerRuntimeState) :
    (∀ agg, (PreOrchStage.PreStage update steps cfg st).2.1 = some agg →
      agg.stepErrors.length = steps.length) ∧
    (∀ agg, (PreOrchStage.RunStage update steps cfg st).2.1 = some agg →
      agg.stepErrors.length = steps.length) ∧
    (∀ prev, PreOrchStage.PostStage update steps cfg st prev ≠ none →
      steps = [] ∨ ∃ p, prev = some p ∧ steps.length ≤ p.stepErrors.length) ∧
    (steps ≠ [] → PreOrchStage.PostStage update steps cfg st none = none) := by
  have hpost_nil : steps ≠ [] → PreOrchStage.PostStage update steps cfg st none = none := by
    intro hne
    simp [PreOrchStage.PostStage, postStageLoop_nil_panic update cfg steps 0 st hne]
  refine ⟨?_, ?_, ?_, hpost_nil⟩
  · intro agg h
    simp only [PreOrchStage.PreStage] at h
    split at h
    · cases h
      simpa using preStageLoop_length update cfg steps 0 st
    · cases h
  · intro agg h
    simp only [PreOrchStage.RunStage] at h
    split at h
    · cases h
      simpa using runStageLoop_length update cfg steps 0 st
    · cases h
  · intro prev h
    cases prev with
    | none =>
      cases hsteps : steps with
      | nil => exact Or.inl rfl
      | cons a l =>
        subst hsteps
        exact absurd (hpost_nil (by simp)) h
    | some p =>
      refine Or.inr ⟨p, rfl, ?_⟩
      cases hsteps : steps with
      | nil => simp
      | cons a l =>
        have hloop : postStageLoop update cfg (some p.stepErrors) steps 0 st ≠ none := by
          intro hn
          exact h (by simp [PreOrchStage.PostStage, hn])
        have hlen : steps.length = l.length + 1 := by rw [hsteps]; rfl
        have hlen2 : (a :: l).length = l.length + 1 := rfl
        have hbound := postStageLoop_bound update cfg p.stepErrors steps 0 st hloop
          (steps.length - 1) (by omega)
        omega

/-- Witness for C5: at a concrete one-step stage, finalizing a `nil`
triggering aggregate panics. -/
theorem c5_witness :
    PreOrchStage.PostStage updOk [stepDummy] sampleConfig sampleState none = none :=
  (c5_aggregate_shape_and_postStage_panic updOk sampleConfig [stepDummy]
    sampleState).2.2.2 (by simp)

/-! ## Claims about TerraformUtility.Run -/

/-- A `TerraformEnv` in which every external call succeeds. -/
def tfEnvOk : TerraformEnv := {}

/-- `Run` reaches the file-writing stage whenever the `environments` directory
exists or is created successfully. -/
theorem terraformRun_eq_afterMkdir (action : String) (env : TerraformEnv)
    (h : env.mkdirNeeded = true → env.mkdirErr = none) :
    TerraformUtility.run action env = terraformRunAfterMkdir action env := by
  unfold TerraformUtility.run
  cases hm : env.mkdirNeeded with
  | false => simp
  | true => simp [h hm]

/-- C4: once the pre-dispatch sub-steps succeed, `install` and `upgrade` take
the apply path and never destroy, `uninstall` takes the destroy path and never
applies, and any other action value performs neither external action and
fails with an `InvalidArgument` structured error. -/
theorem c4_terraform_action_dispatch (action : String) (env : TerraformEnv)
    (hmk : env.mkdirNeeded = true → env.mkdirErr = none)
    (h1 : env.marshalVariablesErr = none) (h2 : env.writeVariablesErr = none)
    (h3 : env.marshalBackendErr = none) (h4 : env.writeBackendErr = none)
    (h5 : env.newTerraformErr = none) (h6 : env.initErr = none)
    (h7 : env.logWriterErr = none) :
    ((action = "install" ∨ action = "upgrade") →
      TfCall.apply ∈ (TerraformUtility.run action env).1 ∧
      TfCall.destroy ∉ (TerraformUtility.run action env).1) ∧
    (action = "uninstall" →
      TfCall.destroy ∈ (TerraformUtility.run action env).1 ∧
      TfCall.apply ∉ (TerraformUtility.run action env).1) ∧
    (action ≠ "install" → action ≠ "upgrade" → action ≠ "uninstall" →
      (TerraformUtility.run action env).1 = [] ∧
      (TerraformUtility.run action env).2 =
        .error ⟨.invalidArgument, "unsupported action: " ++ action⟩) := by
  rw [terraformRun_eq_afterMkdir action env hmk]
  unfold terraformRunAfterMkdir terraformRunAfterFiles
  rw [h1, h2, h3, h4, h5, h6, h7]
  refine ⟨?_, ?_, ?_⟩
  · intro hact
    unfold terraformDispatch
    rw [if_pos hact]
    cases env.applyErr <;> cases env.outputErr <;> simp
  · intro hact
    unfold terraformDispatch
    have hne : ¬ (action = "install" ∨ action = "upgrade") := by
      subst hact
      decide
    rw [if_neg hne, if_pos hact]
    cases env.destroyErr <;> cases env.outputErr <;> simp
  · intro hi hu hun
    unfold terraformDispatch
    rw [if_neg (by simp [hi, hu]), if_neg hun]
    exact ⟨rfl, rfl⟩

/-- Witness for C4 at the concrete action `"install"` in the all-success
environment. -/
theorem c4_witness :
    TfCall.apply ∈ (TerraformUtility.run "install" tfEnvOk).1 ∧
    TfCall.destroy ∉ (TerraformUtility.run "install" tfEnvOk).1 :=
  (c4_terraform_action_dispatch "install" tfEnvOk
    (fun h => by cases h) rfl rfl rfl rfl rfl rfl rfl).1 (Or.inl rfl)

/-- C6 counterexample: a failure while writing the variables file surfaces as
an `Internal`-code structured error, not a `Terraform`-code one as the claim
asserts for that sub-step. -/
theorem c6_counterexample :
    (TerraformUtility.run "install" { tfEnvOk with writeVariablesErr := some "disk full" }).2 =
      .error ⟨.internal, "failed to write variables file: " ++ "disk full"⟩ ∧
    OrchInstallerErrorCode.internal ≠ OrchInstallerErrorCode.terraform := by
  exact ⟨rfl, by decide⟩

/-- C6 (amended): every sub-step failure of `TerraformUtility.Run` surfaces as
a single structured error whose message extends the underlying cause; the
error code is `Terraform` for terraform-instance creation, init, apply,
destroy and output retrieval failures, and `Internal` for directory creation,
variables/backend marshalling and file-write failures and for log-writer
creation failures. -/
theorem c6_terraform_substep_errors (action : String) (env : TerraformEnv)
    (c : String) :
    (env.mkdirNeeded = true → env.mkdirErr = some c →
      (TerraformUtility.run action env).2 =
        .error ⟨.internal, "failed to create environments directory: " ++ c⟩) ∧
    (env.mkdirNeeded = false →
      ((env.marshalVariablesErr = some c →
        (TerraformUtility.run action env).2 =
          .error ⟨.internal, "failed to marshal variables: " ++ c⟩) ∧
      (env.marshalVariablesErr = none → env.writeVariablesErr = some c →
        (TerraformUtility.run action env).2 =
          .error ⟨.internal, "failed to write variables file: " ++ c⟩) ∧
      (env.marshalVariablesErr = none → env.writeVariablesErr = none →
          env.marshalBackendErr = some c →
        (TerraformUtility.run action env).2 =
          .error ⟨.internal, "failed to marshal backend config: " ++ c⟩) ∧
      (env.marshalVariablesErr = none → env.writeVariablesErr = none →
          env.marshalBackendErr = none → env.writeBackendErr = some c →
        (TerraformUtility.run action env).2 =
          .error ⟨.internal, "failed to write backend config file: " ++ c⟩) ∧
      (env.marshalVariablesErr = none → env.writeVariablesErr = none →
          env.marshalBackendErr = none → env.writeBackendErr = none →
          env.newTerraformErr = some c →
        (TerraformUtility.run action env).2 =
          .error ⟨.terraform, "failed to create terraform instance: " ++ c⟩) ∧
      (env.marshalVariablesErr = none → env.writeVariablesErr = none →
          env.marshalBackendErr = none → env.writeBackendErr = none →
          env.newTerraformErr = none → env.initErr = some c →
        (TerraformUtility.run action env).2 =
          .error ⟨.terraform, "failed to create terraform instance: " ++ c⟩) ∧
      (env.marshalVariablesErr = none → env.writeVariablesErr = none →
          env.marshalBackendErr = none → env.writeBackendErr = none →
          env.newTerraformErr = none → env.initErr = none →
          env.logWriterErr = some c →
        (TerraformUtility.run action env).2 =
          .error ⟨.internal, "failed to create file log writer: " ++ c⟩) ∧
      (env.marshalVariablesErr = none → env.writeVariablesErr = none →
          env.marshalBackendErr = none → env.writeBackendErr = none →
          env.newTerraformErr = none → env.initErr = none →
          env.logWriterErr = none →
        (((action = "install" ∨ action = "upgrade") → env.applyErr = some c →
          (TerraformUtility.run action env).2 =
            .error ⟨.terraform, "failed to apply terraform config: " ++ c⟩) ∧
        (action = "uninstall" → env.destroyErr = some c →
          (TerraformUtility.run action env).2 =
            .error ⟨.terraform, "failed to destroy terraform config: " ++ c⟩) ∧
        ((action = "install" ∨ action = "upgrade") → env.applyErr = none →
            env.outputErr = some c →
          (TerraformUtility.run action env).2 =
            .error ⟨.terraform, "failed to retrieve terraform output: " ++ c⟩) ∧
        (action = "uninstall" → env.destroyErr = none → env.outputErr = some c →
          (TerraformUtility.run action env).2 =
            .error ⟨.terraform, "failed to retrieve terraform output: " ++ c⟩))))) := by
  constructor
  · intro hm hc
    unfold TerraformUtility.run
    rw [hm, hc]
    rfl
  · intro hm
    have hrw : TerraformUtility.run action env = terraformRunAfterMkdir action env := by
      unfold TerraformUtility.run
      rw [hm]
      rfl
    rw [hrw]
    unfold terraformRunAfterMkdir terraformRunAfterFiles
    refine ⟨?_, ?_, ?_, ?_, ?_, ?_, ?_, ?_⟩
    · intro h1
      rw [h1]
    · intro h1 h2
      rw [h1, h2]
    · intro h1 h2 h3
      rw [h1, h2, h3]
    · intro h1 h2 h3 h4
      rw [h1, h2, h3, h4]
    · intro h1 h2 h3 h4 h5
      rw [h1, h2, h3, h4, h5]
    · intro h1 h2 h3 h4 h5 h6
      rw [h1, h2, h3, h4, h5, h6]
    · intro h1 h2 h3 h4 h5 h6 h7
      rw [h1, h2, h3, h4, h5, h6, h7]
    · intro h1 h2 h3 h4 h5 h6 h7
      rw [h1, h2, h3, h4, h5, h6, h7]
      unfold terraformDispatch
      refine ⟨?_, ?_, ?_, ?_⟩
      · intro hact hc
        rw [if_pos hact, hc]
      · intro hact hc
        have hne : ¬ (action = "install" ∨ action = "upgrade") := by
          subst hact
          decide
        rw [if_neg hne, if_pos hact, hc]
      · intro hact hc ho
        rw [if_pos hact, hc]
        simp only
        rw [ho]
      · intro hact hc ho
        have hne : ¬ (action = "install" ∨ action = "upgrade") := by
          subst hact
          decide
        rw [if_neg hne, if_pos hact, hc]
        simp only
        rw [ho]

/-- Witness for the amended C6: apply-path failure at the concrete
environment where terraform apply fails. -/
theorem c6_witness :
    (TerraformUtility.run "install" { tfEnvOk with applyErr := some "quota" }).2 =
      .error ⟨.terraform, "failed to apply terraform config: " ++ "quota"⟩ :=
  ((c6_terraform_substep_errors "install"
      { tfEnvOk with applyErr := some "quota" } "quota").2 rfl).2.2.2.2.2.2.2
    rfl rfl rfl rfl rfl rfl rfl |>.1 (Or.inl rfl) rfl

/-! ## Claims about AWSVPCStep.ConfigStep -/

/-- C8: when the VPC CIDR block's mask is numerically larger than the minimum
required mask size (the network is too small), `ConfigStep` fails with an
`InvalidArgument` structured error and returns the input runtime state with no
field written (availability-zone retrieval, which precedes the check, is
assumed to succeed). -/
theorem c8_configStep_cidr_too_small (layout : AWSVPCLayout)
    (env : AWSVPCConfigEnv) (cfg : OrchInstallerConfig) (azs : List String)
    (haz : env.availabilityZones = .ok azs)
    (hmask : defaultNetworkCIDRMask > layout.minimumVPCCIDRMaskSize) :
    (AWSVPCStep.configStep layout env cfg).2.1 = cfg.generated ∧
    ∃ e, (AWSVPCStep.configStep layout env cfg).2.2 = some e ∧
      e.errorCode = .invalidArgument := by
  constructor
  · simp [AWSVPCStep.configStep, haz, hmask]
  · refine ⟨⟨.invalidArgument, "VPC CIDR block is too small: 10.250.0.0/16, minimum is " ++
      toString layout.minimumVPCCIDRMaskSize⟩, ?_, rfl⟩
    simp [AWSVPCStep.configStep, haz, hmask]

/-- Witness for C8 at a concrete layout whose minimum mask (15) is smaller
than the default /16 network's mask. -/
theorem c8_witness :
    (AWSVPCStep.configStep ⟨15, 3, 20, 22⟩
        ⟨.ok ["us-west-2a", "us-west-2b", "us-west-2c"], .ok ("priv", "pub")⟩
        sampleConfig).2.1 = sampleConfig.generated ∧
    ∃ e, (AWSVPCStep.configStep ⟨15, 3, 20, 22⟩
        ⟨.ok ["us-west-2a", "us-west-2b", "us-west-2c"], .ok ("priv", "pub")⟩
        sampleConfig).2.2 = some e ∧ e.errorCode = .invalidArgument :=
  c8_configStep_cidr_too_small ⟨15, 3, 20, 22⟩
    ⟨.ok ["us-west-2a", "us-west-2b", "us-west-2c"], .ok ("priv", "pub")⟩
    sampleConfig ["us-west-2a", "us-west-2b", "us-west-2c"] rfl (by decide)

/-- Appending the same string on the left is injective. -/
theorem string_append_left_cancel {p a b : String} (h : p ++ a = p ++ b) : a = b := by
  have h2 : (p ++ a).data = (p ++ b).data := by rw [h]
  simp [String.data_append] at h2
  exact String.ext h2

/-- Appending the same string on the right is injective. -/
theorem string_append_right_cancel {a b s : String} (h : a ++ s = b ++ s) : a = b := by
  have h2 : (a ++ s).data = (b ++ s).data := by rw [h]
  simp [String.data_append] at h2
  exact String.ext h2

/-- Once the availability zones are known and the CIDR mask check passes, the
variables computed by `ConfigStep` carry exactly one private and one public
subnet per required availability zone, laid out consecutively from the VPC
base address (private block first, public block after it), whatever the
outcome of the SSH key generation. -/
theorem configStep_subnets (layout : AWSVPCLayout) (env : AWSVPCConfigEnv)
    (cfg : OrchInstallerConfig) (azs : List String)
    (haz : env.availabilityZones = .ok azs)
    (hmask : ¬ defaultNetworkCIDRMask > layout.minimumVPCCIDRMaskSize) :
    (AWSVPCStep.configStep layout env cfg).1.privateSubnets =
      (List.range layout.requiredAvailabilityZones).map (fun i =>
        ("subnet-" ++ azs.getD i "",
         AWSVPCSubnet.mk (azs.getD i "")
           ((defaultNetworkCIDRBase + i * 2 ^ (32 - layout.privateSubnetMaskSize)) % 2 ^ 32)
           layout.privateSubnetMaskSize)) ∧
    (AWSVPCStep.configStep layout env cfg).1.publicSubnets =
      (List.range layout.requiredAvailabilityZones).map (fun i =>
        ("subnet-" ++ azs.getD i "" ++ "-pub",
         AWSVPCSubnet.mk (azs.getD i "")
           (((defaultNetworkCIDRBase +
                layout.requiredAvailabilityZones * 2 ^ (32 - layout.privateSubnetMaskSize)) % 2 ^ 32 +
              i * 2 ^ (32 - layout.publicSubnetMaskSize)) % 2 ^ 32)
           layout.publicSubnetMaskSize)) := by
  unfold AWSVPCStep.configStep
  rw [haz]
  simp only [hmask, if_false, ite_false]
  constructor <;> (split <;> (try split) <;> simp)

/-- C7: for the VPC CIDR block 10.250.0.0/16 with 3 required availability
zones and private mask size 20 (and any public mask size between /2 and /32),
`ConfigStep` computes exactly 3 private subnet entries with strictly
increasing, pairwise non-overlapping /20 ranges, and exactly 3 public subnet
entries at the configured public mask size, allocated after the end of the
private block (10.250.0.0 + 3·2^12), strictly increasing and pairwise
non-overlapping; the generated map keys are pairwise distinct. -/
theorem c7_vpc_subnet_layout (minMask pubMask : Nat) (env : AWSVPCConfigEnv)
    (cfg : OrchInstallerConfig) (azs : List String)
    (haz : env.availabilityZones = .ok azs) (hlen : azs.length = 3)
    (hnd : azs.Nodup) (hmin : 16 ≤ minMask) (hpm2 : 2 ≤ pubMask)
    (hpm32 : pubMask ≤ 32) :
    ∃ priv pub,
      (AWSVPCStep.configStep ⟨minMask, 3, 20, pubMask⟩ env cfg).1.privateSubnets = priv ∧
      (AWSVPCStep.configStep ⟨minMask, 3, 20, pubMask⟩ env cfg).1.publicSubnets = pub ∧
      priv.length = 3 ∧
      pub.length = 3 ∧
      (∀ s ∈ priv, s.2.cidrMask = 20) ∧
      (∀ s ∈ pub, s.2.cidrMask = pubMask) ∧
      List.Pairwise (fun a b => a.2.cidrBase < b.2.cidrBase) priv ∧
      List.Pairwise (fun a b => a.2.cidrBase + 2 ^ (32 - a.2.cidrMask) ≤ b.2.cidrBase) priv ∧
      (∀ s ∈ pub, defaultNetworkCIDRBase + 3 * 2 ^ 12 ≤ s.2.cidrBase) ∧
      List.Pairwise (fun a b => a.2.cidrBase < b.2.cidrBase) pub ∧
      List.Pairwise (fun a b => a.2.cidrBase + 2 ^ (32 - a.2.cidrMask) ≤ b.2.cidrBase) pub ∧
      (priv.map Prod.fst).Nodup ∧
      (pub.map Prod.fst).Nodup := by
  obtain ⟨a0, a1, a2, rfl⟩ := List.length_eq_three.mp hlen
  have hmask : ¬ defaultNetworkCIDRMask > minMask := by
    simp [defaultNetworkCIDRMask]
    omega
  obtain ⟨hpriv, hpub⟩ :=
    configStep_subnets ⟨minMask, 3, 20, pubMask⟩ env cfg [a0, a1, a2] haz hmask
  have hr3 : List.range 3 = [0, 1, 2] := rfl
  rw [hr3] at hpriv hpub
  simp only [List.map_cons, List.map_nil, List.getD_cons_zero, List.getD_cons_succ] at hpriv hpub
  obtain ⟨hne01, hne02, hne12⟩ : a0 ≠ a1 ∧ a0 ≠ a2 ∧ a1 ≠ a2 := by
    simpa [List.nodup_cons, and_assoc] using hnd
  have hs1 : 1 ≤ 2 ^ (32 - pubMask) := Nat.one_le_two_pow
  have hs30 : 2 ^ (32 - pubMask) ≤ 2 ^ 30 :=
    Nat.pow_le_pow_right (by norm_num) (by omega)
  refine ⟨_, _, hpriv, hpub, ?_, ?_, ?_, ?_, ?_, ?_, ?_, ?_, ?_, ?_, ?_⟩
  · simp
  · simp
  · simp
  · simp
  · simp [List.pairwise_cons]
    norm_num [defaultNetworkCIDRBase]
  · simp [List.pairwise_cons]
    norm_num [defaultNetworkCIDRBase]
  · simp
    norm_num [defaultNetworkCIDRBase]
    omega
  · simp [List.pairwise_cons]
    norm_num [defaultNetworkCIDRBase]
    omega
  · simp [List.pairwise_cons]
    norm_num [defaultNetworkCIDRBase]
    omega
  · simp [List.nodup_cons]
    refine ⟨⟨?_, ?_⟩, ?_⟩ <;> intro h
    · exact hne01 (string_append_left_cancel h)
    · exact hne02 (string_append_left_cancel h)
    · exact hne12 (string_append_left_cancel h)
  · simp [List.nodup_cons]
    refine ⟨⟨?_, ?_⟩, ?_⟩ <;> intro h
    · exact hne01 (string_append_left_cancel (string_append_right_cancel h))
    · exact hne02 (string_append_left_cancel (string_append_right_cancel h))
    · exact hne12 (string_append_left_cancel (string_append_right_cancel h))

/-- Witness for C7 at the concrete layout (min /20, public /22) and three
concrete availability zones. -/
theorem c7_witness :
    ∃ priv pub,
      (AWSVPCStep.configStep ⟨20, 3, 20, 22⟩
          ⟨.ok ["us-west-2a", "us-west-2b", "us-west-2c"], .ok ("k1", "k2")⟩
          sampleConfig).1.privateSubnets = priv ∧
      (AWSVPCStep.configStep ⟨20, 3, 20, 22⟩
          ⟨.ok ["us-west-2a", "us-west-2b", "us-west-2c"], .ok ("k1", "k2")⟩
          sampleConfig).1.publicSubnets = pub ∧
      priv.length = 3 ∧
      pub.length = 3 ∧
      (∀ s ∈ priv, s.2.cidrMask = 20) ∧
      (∀ s ∈ pub, s.2.cidrMask = 22) ∧
      List.Pairwise (fun a b => a.2.cidrBase < b.2.cidrBase) priv ∧
      List.Pairwise (fun a b => a.2.cidrBase + 2 ^ (32 - a.2.cidrMask) ≤ b.2.cidrBase) priv ∧
      (∀ s ∈ pub, defaultNetworkCIDRBase + 3 * 2 ^ 12 ≤ s.2.cidrBase) ∧
      List.Pairwise (fun a b => a.2.cidrBase < b.2.cidrBase) pub ∧
      List.Pairwise (fun a b => a.2.cidrBase + 2 ^ (32 - a.2.cidrMask) ≤ b.2.cidrBase) pub ∧
      (priv.map Prod.fst).Nodup ∧
      (pub.map Prod.fst).Nodup :=
  c7_vpc_subnet_layout 20 22
    ⟨.ok ["us-west-2a", "us-west-2b", "us-west-2c"], .ok ("k1", "k2")⟩
    sampleConfig ["us-west-2a", "us-west-2b", "us-west-2c"]
    rfl rfl (by decide) (by decide) (by decide) (by decide)

/-! ## Claims about AWSVPCStep.RunStep -/

/-- C9: `RunStep` skips output extraction only for the action string
`"destroy"` (which is outside the install/upgrade/uninstall domain), so a run
with action `"uninstall"` whose terraform destroy succeeded still requires
`vpc_id`, `public_subnets` and `private_subnets` in the terraform output and
fails with a `Terraform`-code structured error when one is absent. -/
theorem c9_runStep_uninstall_requires_outputs (vars : AWSVPCVariables)
    (cfg cfg2 : OrchInstallerConfig) (out : List (String × TfOutputMeta))
    (hact : cfg.generated.action = "uninstall")
    (hact2 : cfg2.generated.action = "destroy") :
    (out.lookup "vpc_id" = none →
      AWSVPCStep.runStep vars (.ok (some out)) cfg =
        (cfg.generated, some ⟨.terraform, "vpc_id does not exist in terraform output"⟩)) ∧
    (∀ m, out.lookup "vpc_id" = some m → out.lookup "public_subnets" = none →
      (AWSVPCStep.runStep vars (.ok (some out)) cfg).2 =
        some ⟨.terraform, "public_subnets does not exist in terraform output"⟩) ∧
    (∀ m m2, out.lookup "vpc_id" = some m → out.lookup "public_subnets" = some m2 →
      (collectSubnetIds vars.publicSubnets m2.ids).2 = none →
      out.lookup "private_subnets" = none →
      (AWSVPCStep.runStep vars (.ok (some out)) cfg).2 =
        some ⟨.terraform, "private_subnets does not exist in terraform output"⟩) ∧
    AWSVPCStep.runStep vars (.ok (some out)) cfg2 = (cfg2.generated, none) := by
  refine ⟨?_, ?_, ?_, ?_⟩
  · intro hv
    simp [AWSVPCStep.runStep, hact, hv]
  · intro m hv hp
    simp [AWSVPCStep.runStep, hact, hv, hp]
  · intro m m2 hv hp hcol hpriv
    simp [AWSVPCStep.runStep, hact, hv, hp, hcol, hpriv]
  · simp [AWSVPCStep.runStep, hact2]

/-- Witness for C9: an uninstall run whose terraform destroy succeeded but
produced an empty output map fails on the missing `vpc_id`. -/
theorem c9_witness :
    AWSVPCStep.runStep {} (.ok (some []))
        { sampleConfig with generated := { action := "uninstall" } } =
      ({ sampleConfig with generated := { action := "uninstall" } }.generated,
        some ⟨.terraform, "vpc_id does not exist in terraform output"⟩) :=
  (c9_runStep_uninstall_requires_outputs {}
    { sampleConfig with generated := { action := "uninstall" } }
    { sampleConfig with generated := { action := "destroy" } } [] rfl rfl).1 rfl

/-! ## Claims about StopSshuttle -/

/-- C10 counterexample: an orphaned handle — the PID file exists but the
recorded process has already died, so `kill` fails — makes `StopSshuttle`
return an error, not complete as a no-op. -/
theorem c10_counterexample :
    StopSshuttle (some "123") (fun _ => some "exit status 1") =
      some ("failed to terminate sshuttle process with PID " ++ "123" ++ ": " ++
        "exit status 1") ∧
    StopSshuttle (some "123") (fun _ => some "exit status 1") ≠ none := by
  constructor
  · rfl
  · intro h
    simp [StopSshuttle, trimSpace] at h

/-- C10 (amended): when the PID file cannot be read, `StopSshuttle` returns
`nil` (a no-op); when the PID file exists, the teardown succeeds exactly when
`kill` does — if the recorded process has already died and `kill` fails,
`StopSshuttle` returns an error wrapping the kill failure instead of
tolerating the orphaned handle. -/
theorem c10_stopSshuttle_read_failure_is_noop (kill : String → Option String) :
    StopSshuttle none kill = none ∧
    (∀ data, kill (trimSpace data) = none → StopSshuttle (some data) kill = none) ∧
    (∀ data cause, kill (trimSpace data) = some cause →
      StopSshuttle (some data) kill =
        some ("failed to terminate sshuttle process with PID " ++ trimSpace data ++
          ": " ++ cause)) := by
  refine ⟨rfl, ?_, ?_⟩
  · intro data h
    simp [StopSshuttle, h]
  · intro data cause h
    simp [StopSshuttle, h]

/-- Witness for the amended C10 at a concrete kill outcome. -/
theorem c10_witness :
    StopSshuttle (some "42") (fun _ => none) = none :=
  (c10_stopSshuttle_read_failure_is_noop (fun _ => none)).2.1 "42" rfl

end EMF
